import Mathlib

/-
Verification of the Library-Management-System backend (Django REST Framework
glue code): the three view classes in apps/accounts/views.py and the URL
dispatch table in config/urls.py.

The framework machinery the views inherit (DRF generic-view dispatch:
authentication/permission checks run in `APIView.initial` before the handler
for the HTTP method is resolved) is modelled here explicitly; the declarative
configuration of each view (`permission_classes`, `serializer_class`,
`get_object`, which generic base class and hence which handlers exist) is
translated from the source.
-/

namespace LMS

/-- HTTP methods relevant to the claims. -/
inductive Method where
  | GET
  | POST
  | PUT
  | PATCH
  | DELETE
deriving DecidableEq

/-- Primary key of a user row (Django's pluggable user model). -/
abbrev UserId := Nat

/-- Modelled from the spec: the serialized shape of a user is owned by
apps/accounts/serializers.py, which is not under src; a record is abstracted
as an opaque string of serialized fields. -/
abbrev UserData := String

/-- The user table: an association list keyed by user id. -/
abbrev Database := List (UserId × UserData)

/-- Look up a user row by id. -/
def lookupUser : Database → UserId → Option UserData
  | [], _ => none
  | (v, d) :: rest, uid => if v = uid then some d else lookupUser rest uid

/-- Overwrite the row with the given id (first occurrence), leaving every
other row untouched. -/
def updateUser : Database → UserId → UserData → Database
  | [], _, _ => []
  | (v, d) :: rest, uid, newData =>
    if v = uid then (v, newData) :: rest else (v, d) :: updateUser rest uid newData

/-- Largest key present in the table (0 when empty). -/
def maxKey : Database → Nat
  | [] => 0
  | (v, _) :: rest => max v (maxKey rest)

/-- A key not yet present in the table, for a freshly created row. -/
def freshId (db : Database) : UserId := maxKey db + 1

/-- Insert a brand-new user row at a fresh id. -/
def createUser (db : Database) (d : UserData) : Database :=
  db ++ [(freshId db, d)]

/-- The two DRF permission classes imported by apps/accounts/views.py. -/
inductive Permission where
  | allowAny
  | isAuthenticated
deriving DecidableEq

/-- An incoming HTTP request as the views observe it: the method, the
authenticated user (none when the request carries no valid credentials),
the serializer verdict on the payload together with the payload itself, and,
for the login view, whether the posted credentials match some user. -/
structure Request where
  method : Method
  user : Option UserId
  valid : Bool
  payload : UserData
  credentials : Option UserId
deriving DecidableEq

/-- An HTTP response: status code and optional serialized body. -/
structure Response where
  status : Nat
  body : Option UserData
deriving DecidableEq

/-- `has_permission` of the two DRF permission classes: AllowAny always
grants; IsAuthenticated grants exactly when the request has an
authenticated user. -/
def hasPermission : Permission → Request → Bool
  | Permission.allowAny, _ => true
  | Permission.isAuthenticated, req => req.user.isSome

/-- `APIView.check_permissions`: every configured permission must grant. -/
def checkPermissions (perms : List Permission) (req : Request) : Bool :=
  perms.all fun p => hasPermission p req

/-- A bound handler method of a view: consumes the table and the request,
produces a response and the new table. -/
abbrev HandlerFun := Database → Request → Response × Database

/-- Model of DRF `APIView.dispatch`/`initial`: permission checks run first;
a denied request gets 401 when unauthenticated (NotAuthenticated) and 403
when authenticated (PermissionDenied); only then is the handler for the HTTP
method resolved, a method the view does not implement getting 405. -/
def drfDispatch (perms : List Permission) (handlers : Method → Option HandlerFun)
    (db : Database) (req : Request) : Response × Database :=
  if checkPermissions perms req then
    match handlers req.method with
    | some h => h db req
    | none => (⟨405, none⟩, db)
  else if req.user.isSome then (⟨403, none⟩, db)
  else (⟨401, none⟩, db)

namespace UserRegistrationView

/-- From views.py line 15: `permission_classes = (AllowAny,)`. -/
def permission_classes : List Permission := [Permission.allowAny]

/-- `generics.CreateAPIView` provides exactly one handler, `post` (create):
the serializer validates the payload, and on success a new user row is saved
and 201 returned, otherwise 400. -/
def handlers : Method → Option HandlerFun
  | Method.POST => some fun db req =>
      if req.valid then (⟨201, some req.payload⟩, createUser db req.payload)
      else (⟨400, none⟩, db)
  | _ => none

/-- The registration endpoint end to end. -/
def dispatchView (db : Database) (req : Request) : Response × Database :=
  drfDispatch permission_classes handlers db req

end UserRegistrationView

namespace UserProfileView

/-- From views.py line 27: `permission_classes = (IsAuthenticated,)`. -/
def permission_classes : List Permission := [Permission.isAuthenticated]

/-- From views.py lines 29-30: `get_object` returns `self.request.user`,
the requesting user, never a looked-up other object. -/
def get_object (req : Request) : Option UserId := req.user

/-- The update handler shared by `put` and `patch` of
`generics.RetrieveUpdateAPIView`: validate, then save onto `get_object`. -/
def updateHandler : HandlerFun := fun db req =>
  match get_object req with
  | some uid =>
      if req.valid then (⟨200, some req.payload⟩, updateUser db uid req.payload)
      else (⟨400, none⟩, db)
  | none => (⟨401, none⟩, db)

/-- `generics.RetrieveUpdateAPIView` provides `get` (retrieve), `put`
(update) and `patch` (the PATCH variant of update) and nothing else;
`get` serializes `get_object`, i.e. the requesting user's row. -/
def handlers : Method → Option HandlerFun
  | Method.GET => some fun db req =>
      match get_object req with
      | some uid => (⟨200, lookupUser db uid⟩, db)
      | none => (⟨401, none⟩, db)
  | Method.PUT => some updateHandler
  | Method.PATCH => some updateHandler
  | _ => none

/-- The profile endpoint end to end. -/
def dispatchView (db : Database) (req : Request) : Response × Database :=
  drfDispatch permission_classes handlers db req

end UserProfileView

/-- A JWT token pair as issued by the login endpoint; its internal format is
owned by the JWT library. -/
structure TokenPair where
  access : String
  refresh : String
deriving DecidableEq

namespace UserLoginView

/-- From views.py line 21: `permission_classes = (AllowAny,)`. -/
def permission_classes : List Permission := [Permission.allowAny]

/-- Modelled from the spec: `TokenObtainPairView` is owned by the JWT
library (rest_framework_simplejwt) and is not in this repository; on POST it
returns a token pair for the user matching the posted credentials, or 401
when the credentials match no user. -/
def post (req : Request) : Nat × Option TokenPair :=
  match req.credentials with
  | some uid => (200, some ⟨String.append "access-" (toString uid),
                           String.append "refresh-" (toString uid)⟩)
  | none => (401, none)

/-- The login endpoint end to end: DRF dispatch (permission checks first)
around the single `post` handler of `TokenObtainPairView`. -/
def dispatchView (req : Request) : Nat × Option TokenPair :=
  if checkPermissions permission_classes req then
    match req.method with
    | Method.POST => post req
    | _ => (405, none)
  else if req.user.isSome then (403, none)
  else (401, none)

end UserLoginView

/-- A URL path, after Django strips the leading slash, as a character list. -/
abbrev Path := List Char

/-- Match a route string at the front of a path: when the path begins with
the route, the remainder of the path is returned (Django's matching of an
included route consumes the matched part and forwards the rest). -/
def stripRoute : Path → Path → Option Path
  | p, [] => some p
  | [], _ :: _ => none
  | c :: cs, d :: ds => if c = d then stripRoute cs ds else none

/-- The handlers config/urls.py routes to: the framework admin site, the
three drf-spectacular documentation views, and the four included per-app
route modules. -/
inductive Handler where
  | adminSite
  | schemaView
  | swaggerView
  | redocView
  | accountsUrls
  | booksUrls
  | circulationsUrls
  | finesUrls
deriving DecidableEq

/-- A `path(...)` entry: a terminal route matches the whole remaining path
exactly; an included route (`include(...)`/`admin.site.urls`) matches any
path starting with it and forwards the rest. -/
inductive UrlPattern where
  | route (r : Path)
  | includeRoute (r : Path)

/-- Whether a pattern matches a path; on a match, the remainder handed to
the routed handler. -/
def matchPattern : UrlPattern → Path → Option Path
  | UrlPattern.route r, p => if p = r then some [] else none
  | UrlPattern.includeRoute r, p => stripRoute p r

/-- Django's resolver: the first matching entry, in order, wins. -/
def resolve : List (UrlPattern × Handler) → Path → Option (Handler × Path)
  | [], _ => none
  | (pat, h) :: rest, p =>
    match matchPattern pat p with
    | some rem => some (h, rem)
    | none => resolve rest p

/-- The route string "admin/". -/
def adminRoute : Path := ['a', 'd', 'm', 'i', 'n', '/']

/-- The route string "api/schema/". -/
def schemaRoute : Path := ['a', 'p', 'i', '/', 's', 'c', 'h', 'e', 'm', 'a', '/']

/-- The route string "api/redoc/". -/
def redocRoute : Path := ['a', 'p', 'i', '/', 'r', 'e', 'd', 'o', 'c', '/']

/-- The route string "api/auth/". -/
def authRoute : Path := ['a', 'p', 'i', '/', 'a', 'u', 't', 'h', '/']

/-- The route string "api/books/". -/
def booksRoute : Path := ['a', 'p', 'i', '/', 'b', 'o', 'o', 'k', 's', '/']

/-- The route string "api/circulations/". -/
def circulationsRoute : Path :=
  ['a', 'p', 'i', '/', 'c', 'i', 'r', 'c', 'u', 'l', 'a', 't', 'i', 'o', 'n', 's', '/']

/-- The route string "api/fines/". -/
def finesRoute : Path := ['a', 'p', 'i', '/', 'f', 'i', 'n', 'e', 's', '/']

/-- The dispatch table of config/urls.py, in source order: the admin site,
the three documentation views (the schema and redoc routes terminal, the
Swagger UI at the empty route), and the four per-app includes. -/
def urlpatterns : List (UrlPattern × Handler) :=
  [ (UrlPattern.includeRoute adminRoute, Handler.adminSite),
    (UrlPattern.route schemaRoute, Handler.schemaView),
    (UrlPattern.route [], Handler.swaggerView),
    (UrlPattern.route redocRoute, Handler.redocView),
    (UrlPattern.includeRoute authRoute, Handler.accountsUrls),
    (UrlPattern.includeRoute booksRoute, Handler.booksUrls),
    (UrlPattern.includeRoute circulationsRoute, Handler.circulationsUrls),
    (UrlPattern.includeRoute finesRoute, Handler.finesUrls) ]

/-- Updating a row and then reading it back gives the new value, provided
the row existed. -/
theorem lookupUser_updateUser_self (db : Database) (uid : UserId) (x d : UserData)
    (h : lookupUser db uid = some d) :
    lookupUser (updateUser db uid x) uid = some x := by
  induction db with
  | nil => simp [lookupUser] at h
  | cons hd tl ih =>
      obtain ⟨k, w⟩ := hd
      by_cases hk : k = uid
      · subst hk
        simp [lookupUser, updateUser]
      · simp [lookupUser, updateUser, hk] at h ⊢
        exact ih h

/-- Updating one row leaves the value read at every other key unchanged. -/
theorem lookupUser_updateUser_other (db : Database) (uid v : UserId) (x : UserData)
    (h : v ≠ uid) :
    lookupUser (updateUser db uid x) v = lookupUser db v := by
  induction db with
  | nil => simp [updateUser]
  | cons hd tl ih =>
      obtain ⟨k, w⟩ := hd
      by_cases hk : k = uid
      · have huv : uid ≠ v := fun hh => h hh.symm
        simp [lookupUser, updateUser, hk, huv]
      · by_cases hkv : k = v
        · subst hkv
          simp [lookupUser, updateUser, hk]
        · simp [lookupUser, updateUser, hk, hkv]
          exact ih

/-- Any key strictly above the maximum key is absent from the table. -/
theorem lookupUser_eq_none_of_gt (db : Database) (uid : UserId)
    (h : maxKey db < uid) :
    lookupUser db uid = none := by
  induction db with
  | nil => rfl
  | cons hd tl ih =>
      obtain ⟨k, w⟩ := hd
      simp [maxKey, Nat.max_lt] at h
      simp [lookupUser, Nat.ne_of_lt h.1, ih h.2]

/-- The fresh id is absent from the table it was generated for. -/
theorem lookupUser_freshId (db : Database) : lookupUser db (freshId db) = none :=
  lookupUser_eq_none_of_gt db _ (Nat.lt_succ_self _)

/-- Looking up a key absent from the left part of an appended table reads
the right part. -/
theorem lookupUser_append_of_none (db l2 : Database) (uid : UserId)
    (h : lookupUser db uid = none) :
    lookupUser (db ++ l2) uid = lookupUser l2 uid := by
  induction db with
  | nil => simp
  | cons hd tl ih =>
      obtain ⟨k, w⟩ := hd
      by_cases hk : k = uid
      · simp [lookupUser, hk] at h
      · simp [lookupUser, hk] at h ⊢
        exact ih h

/-- A created user row is readable back at the fresh id. -/
theorem lookupUser_createUser (db : Database) (d : UserData) :
    lookupUser (createUser db d) (freshId db) = some d := by
  unfold createUser
  rw [lookupUser_append_of_none db _ _ (lookupUser_freshId db)]
  simp [lookupUser]

/-- C1: for an authenticated GET, PUT or PATCH on the profile endpoint, the
record operated on is exactly the requesting user's: a GET answers with the
requester's own row and changes nothing, and a valid update writes the
requester's row while every other user's row keeps its old value. -/
theorem profile_operates_on_requesting_user_only
    (db : Database) (req : Request) (uid : UserId) (d : UserData)
    (hauth : req.user = some uid) (hd : lookupUser db uid = some d) :
    (req.method = Method.GET →
      UserProfileView.dispatchView db req = (⟨200, lookupUser db uid⟩, db)) ∧
    ((req.method = Method.PUT ∨ req.method = Method.PATCH) → req.valid = true →
      lookupUser (UserProfileView.dispatchView db req).2 uid = some req.payload ∧
      ∀ v, v ≠ uid →
        lookupUser (UserProfileView.dispatchView db req).2 v = lookupUser db v) := by
  constructor
  · intro hm
    simp [UserProfileView.dispatchView, drfDispatch, checkPermissions, hasPermission,
      UserProfileView.permission_classes, hauth, hm, UserProfileView.handlers,
      UserProfileView.get_object]
  · intro hm hv
    constructor
    · rcases hm with hm | hm <;>
        simp [UserProfileView.dispatchView, drfDispatch, checkPermissions, hasPermission,
          UserProfileView.permission_classes, hauth, hm, hv, UserProfileView.handlers,
          UserProfileView.updateHandler, UserProfileView.get_object,
          lookupUser_updateUser_self db uid req.payload d hd]
    · intro v hvne
      rcases hm with hm | hm <;>
        simp [UserProfileView.dispatchView, drfDispatch, checkPermissions, hasPermission,
          UserProfileView.permission_classes, hauth, hm, hv, UserProfileView.handlers,
          UserProfileView.updateHandler, UserProfileView.get_object,
          lookupUser_updateUser_other db uid v req.payload hvne]

/-- Witness for C1: a concrete authenticated GET answers with the
requester's own row. -/
theorem profile_operates_on_requesting_user_only_witness :
    UserProfileView.dispatchView [(1, "alice")]
        ⟨Method.GET, some 1, true, "p", none⟩
      = (⟨200, lookupUser [(1, "alice")] 1⟩, [(1, "alice")]) :=
  (profile_operates_on_requesting_user_only [(1, "alice")]
      ⟨Method.GET, some 1, true, "p", none⟩ 1 "alice" rfl rfl).1 rfl

/-- C2: a request to the profile endpoint with no valid authentication is
rejected with 401, with no body and the user table untouched, whatever the
method. -/
theorem profile_unauthenticated_401 (db : Database) (req : Request)
    (h : req.user = none) :
    UserProfileView.dispatchView db req = (⟨401, none⟩, db) := by
  simp [UserProfileView.dispatchView, drfDispatch, checkPermissions, hasPermission,
    UserProfileView.permission_classes, h]

/-- Witness for C2: a concrete unauthenticated GET gets 401 and leaves the
table unchanged. -/
theorem profile_unauthenticated_401_witness :
    UserProfileView.dispatchView [(1, "alice")]
        ⟨Method.GET, none, true, "p", none⟩
      = (⟨401, none⟩, [(1, "alice")]) :=
  profile_unauthenticated_401 [(1, "alice")] ⟨Method.GET, none, true, "p", none⟩ rfl

/-- C3: a POST to the registration endpoint is never rejected by the
permission layer (neither 401 nor 403, authenticated or not), and a
successful POST (status 201) creates a user row at an id that did not exist
before. -/
theorem registration_open_access_creates_user (db : Database) (req : Request)
    (hm : req.method = Method.POST) :
    (UserRegistrationView.dispatchView db req).1.status ≠ 401 ∧
    (UserRegistrationView.dispatchView db req).1.status ≠ 403 ∧
    ((UserRegistrationView.dispatchView db req).1.status = 201 →
      lookupUser db (freshId db) = none ∧
      lookupUser (UserRegistrationView.dispatchView db req).2 (freshId db)
        = some req.payload) := by
  cases hv : req.valid <;>
    simp [UserRegistrationView.dispatchView, drfDispatch, checkPermissions, hasPermission,
      UserRegistrationView.permission_classes, hm, hv, UserRegistrationView.handlers,
      lookupUser_freshId, lookupUser_createUser]

/-- Witness for C3: a concrete unauthenticated valid POST creates the user. -/
theorem registration_open_access_creates_user_witness :
    lookupUser ((UserRegistrationView.dispatchView [(1, "alice")]
        ⟨Method.POST, none, true, "bob", none⟩).2)
      (freshId [(1, "alice")]) = some "bob" :=
  ((registration_open_access_creates_user [(1, "alice")]
      ⟨Method.POST, none, true, "bob", none⟩ rfl).2.2 rfl).2

/-- C5: a POST to the registration endpoint with a valid payload answers
201 Created. -/
theorem registration_valid_payload_201 (db : Database) (req : Request)
    (hm : req.method = Method.POST) (hv : req.valid = true) :
    (UserRegistrationView.dispatchView db req).1.status = 201 := by
  simp [UserRegistrationView.dispatchView, drfDispatch, checkPermissions, hasPermission,
    UserRegistrationView.permission_classes, hm, hv, UserRegistrationView.handlers]

/-- Witness for C5: a concrete valid POST answers 201. -/
theorem registration_valid_payload_201_witness :
    (UserRegistrationView.dispatchView []
        ⟨Method.POST, none, true, "bob", none⟩).1.status = 201 :=
  registration_valid_payload_201 [] ⟨Method.POST, none, true, "bob", none⟩ rfl rfl

/-- C4: a POST to the login endpoint always reaches the token view's own
handler (open access: the permission layer never turns it away, whatever
the authentication state), and a successful POST (status 200) carries a
token pair in its body. -/
theorem login_open_access_returns_token_pair (req : Request)
    (hm : req.method = Method.POST) :
    UserLoginView.dispatchView req = UserLoginView.post req ∧
    ((UserLoginView.dispatchView req).1 = 200 →
      ∃ tp, (UserLoginView.dispatchView req).2 = some tp) := by
  have h1 : UserLoginView.dispatchView req = UserLoginView.post req := by
    simp [UserLoginView.dispatchView, checkPermissions, hasPermission,
      UserLoginView.permission_classes, hm]
  refine ⟨h1, ?_⟩
  rw [h1]
  cases hc : req.credentials <;> simp [UserLoginView.post, hc]

/-- Witness for C4: a concrete unauthenticated POST with matching
credentials gets its token pair. -/
theorem login_open_access_returns_token_pair_witness :
    UserLoginView.dispatchView ⟨Method.POST, none, true, "p", some 1⟩
      = UserLoginView.post ⟨Method.POST, none, true, "p", some 1⟩ :=
  (login_open_access_returns_token_pair
      ⟨Method.POST, none, true, "p", some 1⟩ rfl).1

/-- C8: an authenticated PUT or PATCH to the profile endpoint leaves the
row of every user other than the requester exactly as it was, whether or
not the payload validates. -/
theorem profile_update_frame (db : Database) (req : Request) (uid : UserId)
    (hauth : req.user = some uid)
    (hm : req.method = Method.PUT ∨ req.method = Method.PATCH) :
    ∀ v, v ≠ uid →
      lookupUser (UserProfileView.dispatchView db req).2 v = lookupUser db v := by
  intro v hv
  rcases hm with hm | hm <;>
    cases hval : req.valid <;>
      simp [UserProfileView.dispatchView, drfDispatch, checkPermissions, hasPermission,
        UserProfileView.permission_classes, hauth, hm, hval, UserProfileView.handlers,
        UserProfileView.updateHandler, UserProfileView.get_object,
        lookupUser_updateUser_other db uid v req.payload hv]

/-- Witness for C8: a concrete authenticated PUT by user 1 leaves user 2's
row unchanged. -/
theorem profile_update_frame_witness :
    lookupUser (UserProfileView.dispatchView [(1, "alice"), (2, "bob")]
        ⟨Method.PUT, some 1, true, "p", none⟩).2 2
      = lookupUser [(1, "alice"), (2, "bob")] 2 :=
  profile_update_frame [(1, "alice"), (2, "bob")]
    ⟨Method.PUT, some 1, true, "p", none⟩ 1 rfl (Or.inl rfl) 2 (by decide)

/-- Counterexample to C9 as stated: an unauthenticated DELETE to the
profile endpoint is rejected by the permission layer with 401, not with
405 method-not-allowed. -/
theorem profile_delete_unauth_401_not_405 :
    (UserProfileView.dispatchView [] ⟨Method.DELETE, none, true, "p", none⟩).1.status
        = 401 ∧
    (401 : Nat) ≠ 405 := by
  constructor
  · rfl
  · decide

/-- C9 (amended): a DELETE to the profile endpoint never deletes or
modifies any user row and returns no body; an authenticated DELETE is
rejected 405 method-not-allowed (the view implements no delete handler),
while an unauthenticated one is rejected 401 by the permission layer. -/
theorem profile_delete_rejected_no_effect (db : Database) (req : Request)
    (hm : req.method = Method.DELETE) :
    (UserProfileView.dispatchView db req).2 = db ∧
    (UserProfileView.dispatchView db req).1.body = none ∧
    (req.user ≠ none → (UserProfileView.dispatchView db req).1.status = 405) ∧
    (req.user = none → (UserProfileView.dispatchView db req).1.status = 401) := by
  cases hu : req.user <;>
    simp [UserProfileView.dispatchView, drfDispatch, checkPermissions, hasPermission,
      UserProfileView.permission_classes, hu, hm, UserProfileView.handlers]

/-- Witness for C9 (amended): a concrete authenticated DELETE gets 405 and
leaves the table untouched. -/
theorem profile_delete_rejected_no_effect_witness :
    (UserProfileView.dispatchView [(1, "alice")]
        ⟨Method.DELETE, some 1, true, "p", none⟩).2 = [(1, "alice")] ∧
    (UserProfileView.dispatchView [(1, "alice")]
        ⟨Method.DELETE, some 1, true, "p", none⟩).1.status = 405 := by
  have h := profile_delete_rejected_no_effect [(1, "alice")]
    ⟨Method.DELETE, some 1, true, "p", none⟩ rfl
  exact ⟨h.1, h.2.2.1 (by simp)⟩

/-- C6: a path that begins with one of the four API route strings is
resolved by the dispatch table to the include of the corresponding app and
to no other handler, with the rest of the path forwarded to it. -/
theorem api_routes_delegate_to_apps (rest : Path) :
    resolve urlpatterns (authRoute ++ rest) = some (Handler.accountsUrls, rest) ∧
    resolve urlpatterns (booksRoute ++ rest) = some (Handler.booksUrls, rest) ∧
    resolve urlpatterns (circulationsRoute ++ rest)
      = some (Handler.circulationsUrls, rest) ∧
    resolve urlpatterns (finesRoute ++ rest) = some (Handler.finesUrls, rest) := by
  refine ⟨?_, ?_, ?_, ?_⟩ <;>
    simp [resolve, urlpatterns, matchPattern, stripRoute, adminRoute, schemaRoute,
      redocRoute, authRoute, booksRoute, circulationsRoute, finesRoute]

/-- C7: the dispatch table sends "api/schema/" to the OpenAPI schema view,
the empty path to the Swagger UI view, and "api/redoc/" to the Redoc view. -/
theorem docs_routes_resolve :
    resolve urlpatterns schemaRoute = some (Handler.schemaView, []) ∧
    resolve urlpatterns [] = some (Handler.swaggerView, []) ∧
    resolve urlpatterns redocRoute = some (Handler.redocView, []) := by
  refine ⟨?_, ?_, ?_⟩ <;> rfl

/-- C10: the dispatch table also exposes the "admin/" route, every path
under it being resolved to the framework's admin site. -/
theorem admin_route_exposed (rest : Path) :
    resolve urlpatterns (adminRoute ++ rest) = some (Handler.adminSite, rest) := by
  simp [resolve, urlpatterns, matchPattern, stripRoute, adminRoute]

end LMS
